import Mathlib

/-!
Verification of the claude-code-skills-lab repository.

Part 1 models the pytest fixture-template generation utility (template
registry, `generate`, `generateBatch`).  The generator's own source file is
not present in the repository snapshot; its definitions below are modelled
from the specification and each carries a doc comment saying so.

Part 2 embeds the two FastAPI toy applications (`fastapi-hello` and
`task-api`) whose handlers are present as source.
-/

namespace FixtureGen

/-- A template segment: either literal text or a named placeholder.
Modelled from the spec: templates are "immutable string[s] containing named
placeholders (e.g. `name`, `scope`, `params`)". -/
inductive Seg where
  | lit (s : String)
  | hole (p : String)
deriving DecidableEq, Repr

/-- Modelled from the spec: the error taxonomy of section 7 —
`UnknownKindError` carries the invalid kind and the list of valid kinds,
`MissingParameterError` names the missing placeholder. -/
inductive GenError where
  | UnknownKindError (kind : String) (valid : List String)
  | MissingParameterError (param : String)
deriving DecidableEq, Repr

/-- Modelled from the spec: the "factory" template — a pytest fixture named
`name_factory` returning a nested builder `_make_name` that accepts keyword
overrides and returns a mapping seeded with them (spec section 8). -/
def factoryTemplate : List Seg :=
  [Seg.lit "@pytest.fixture\ndef ", Seg.hole "name",
   Seg.lit "_factory():\n    def _make_", Seg.hole "name",
   Seg.lit "(**overrides):\n        return dict(**overrides)\n    return _make_",
   Seg.hole "name", Seg.lit "\n"]

/-- Modelled from the spec: the "database" template, requiring only `name`. -/
def databaseTemplate : List Seg :=
  [Seg.lit "@pytest.fixture\ndef ", Seg.hole "name",
   Seg.lit "():\n    connection = connect_test_database()\n    yield connection\n    connection.close()\n"]

/-- Modelled from the spec: the "mock" template, requiring only `name`. -/
def mockTemplate : List Seg :=
  [Seg.lit "@pytest.fixture\ndef ", Seg.hole "name",
   Seg.lit "():\n    return MagicMock(name=\"", Seg.hole "name", Seg.lit "\")\n"]

/-- Modelled from the spec: the "data" template, requiring only `name`. -/
def dataTemplate : List Seg :=
  [Seg.lit "@pytest.fixture\ndef ", Seg.hole "name",
   Seg.lit "():\n    return dict(name=\"", Seg.hole "name", Seg.lit "\")\n"]

/-- Modelled from the spec: the "async" template, requiring only `name`. -/
def asyncTemplate : List Seg :=
  [Seg.lit "@pytest.fixture\nasync def ", Seg.hole "name",
   Seg.lit "():\n    return \"", Seg.hole "name", Seg.lit "\"\n"]

/-- Modelled from the spec: the "autouse" template, requiring only `name`. -/
def autouseTemplate : List Seg :=
  [Seg.lit "@pytest.fixture(autouse=True)\ndef ", Seg.hole "name",
   Seg.lit "():\n    yield\n"]

/-- Modelled from the spec: the "parametrized" template, using the `params`
placeholder (default: a two-element example list). -/
def parametrizedTemplate : List Seg :=
  [Seg.lit "@pytest.fixture(params=", Seg.hole "params",
   Seg.lit ")\ndef ", Seg.hole "name", Seg.lit "(request):\n    return request.param\n"]

/-- Modelled from the spec: the "scoped" template, using the `scope`
placeholder (default "function"). -/
def scopedTemplate : List Seg :=
  [Seg.lit "@pytest.fixture(scope=\"", Seg.hole "scope",
   Seg.lit "\")\ndef ", Seg.hole "name", Seg.lit "():\n    return None\n"]

/-- Modelled from the spec: the fixed, read-only registry mapping each
fixture kind to its template, in declaration order (glossary: factory,
database, mock, data, async, autouse, parametrized, scoped). -/
def registry : List (String × List Seg) :=
  [("factory", factoryTemplate),
   ("database", databaseTemplate),
   ("mock", mockTemplate),
   ("data", dataTemplate),
   ("async", asyncTemplate),
   ("autouse", autouseTemplate),
   ("parametrized", parametrizedTemplate),
   ("scoped", scopedTemplate)]

/-- Modelled from the spec: `listKinds()` returns all registered kind
identifiers in declaration order. -/
def listKinds : List String := registry.map Prod.fst

/-- Modelled from the spec: template lookup against an arbitrary registry
`reg`; fails with `UnknownKindError` naming the invalid kind and
enumerating the valid kinds of `reg`. -/
def getTemplateR (reg : List (String × List Seg)) (kind : String) :
    Except GenError (List Seg) :=
  match reg.lookup kind with
  | some t => Except.ok t
  | none => Except.error (GenError.UnknownKindError kind (reg.map Prod.fst))

/-- Modelled from the spec: `getTemplate(kind)` returns the template for
`kind` from the process-wide registry, or fails with `UnknownKindError`
naming the invalid kind and enumerating the valid kinds. -/
def getTemplate (kind : String) : Except GenError (List Seg) :=
  getTemplateR registry kind

/-- Modelled from the spec: the explicitly declared per-kind defaults —
`scope="function"` for the "scoped" kind, and a two-element example
parameter list for the "parametrized" kind. -/
def kindDefaults (kind : String) : List (String × String) :=
  if kind = "scoped" then [("scope", "function")]
  else if kind = "parametrized" then [("params", "[1, 2]")]
  else []

/-- The placeholders referenced by a template. -/
def holesList : List Seg → List String
  | [] => []
  | Seg.lit _ :: rest => holesList rest
  | Seg.hole p :: rest => p :: holesList rest

/-- The template rendered back to its source string form, placeholders shown
in brace notation. -/
def templateText : List Seg → String
  | [] => ""
  | Seg.lit s :: rest => s ++ templateText rest
  | Seg.hole p :: rest => "\x7b" ++ p ++ "\x7d" ++ templateText rest

/-- Substitute each placeholder from the association list `sub`; fail with
`MissingParameterError` at the first placeholder with no value. -/
def renderSegs : List Seg → List (String × String) → Except GenError String
  | [], _ => Except.ok ""
  | Seg.lit s :: rest, sub =>
    match renderSegs rest sub with
    | Except.ok r => Except.ok (s ++ r)
    | Except.error e => Except.error e
  | Seg.hole p :: rest, sub =>
    match sub.lookup p with
    | some v =>
      match renderSegs rest sub with
      | Except.ok r => Except.ok (v ++ r)
      | Except.error e => Except.error e
    | none => Except.error (GenError.MissingParameterError p)

/-- The combined substitution set for one generation call: the fixture name,
the caller's extra parameters, then the declared per-kind defaults. -/
def substSet (kind name : String) (extraParams : List (String × String)) :
    List (String × String) :=
  ("name", name) :: extraParams ++ kindDefaults kind

/-- Modelled from the spec: the generation algorithm against an arbitrary
registry `reg` — look the kind up (failing with `UnknownKindError`
otherwise) and substitute `name`, the extra parameters and the per-kind
defaults into the template's placeholders. -/
def generateR (reg : List (String × List Seg)) (kind name : String)
    (extraParams : List (String × String)) : Except GenError String :=
  match reg.lookup kind with
  | some t => renderSegs t (substSet kind name extraParams)
  | none => Except.error (GenError.UnknownKindError kind (reg.map Prod.fst))

/-- Modelled from the spec: `generate(kind, name, extraParams)` renders one
fixture against the process-wide registry. -/
def generate (kind name : String) (extraParams : List (String × String)) :
    Except GenError String :=
  generateR registry kind name extraParams

/-- Modelled from the spec: one batch fixture definition — a mapping with a
required `kind` key, an optional `name` key, and optional kind-specific
extra keys. -/
structure FixtureDef where
  kind : String
  name : Option String
  extra : List (String × String)
deriving DecidableEq, Repr

/-- Modelled from the spec: the fixture's name defaults to the kind
identifier itself when no explicit `name` key is present. -/
def effName (d : FixtureDef) : String := d.name.getD d.kind

/-- Modelled from the spec: render each batch definition in order,
fail-fast on the first failing `generate` call. -/
def batchBodies : List FixtureDef → Except GenError (List String)
  | [] => Except.ok []
  | d :: rest =>
    match generate d.kind (effName d) d.extra with
    | Except.error e => Except.error e
    | Except.ok b =>
      match batchBodies rest with
      | Except.error e => Except.error e
      | Except.ok bs => Except.ok (b :: bs)

/-- Modelled from the spec: the fixed two-line header of a batch document —
a summary docstring line and an import declaration for pytest. -/
def batchHeader : String := "\"\"\"Generated test fixtures.\"\"\"\nimport pytest"

/-- Modelled from the spec: `generateBatch(fixtureDefinitions)` — concatenate
the renderings in input order, separated by blank lines, preceded by the
fixed two-line header; fail as a whole if any `generate` call fails. -/
def generateBatch (defs : List FixtureDef) : Except GenError String :=
  match batchBodies defs with
  | Except.ok bs => Except.ok (batchHeader ++ "\n\n" ++ String.intercalate "\n\n" bs)
  | Except.error e => Except.error e

end FixtureGen

namespace FastapiHello

/-- The request body schema of `fastapi-hello/main.py` (`TodoItem`): an id,
a task string and an optional time estimate (the `completed` field is
commented out in the source). -/
structure TodoItem where
  id : Int
  task : String
  time_estimate : Option Int
deriving DecidableEq, Repr

/-- The response schema of `fastapi-hello/main.py` (`TodoItemResponse`). -/
structure TodoItemResponse where
  id : Int
  task : String
  time_estimate : Option Int
  completed : Bool
deriving DecidableEq, Repr

/-- The response body of `delete_todo`: a single-key mapping
`message -> text`. -/
structure MessageResponse where
  message : String
deriving DecidableEq, Repr

/-- An `HTTPException` raised by a handler, with status code and detail. -/
inductive HTTPError where
  | httpException (statusCode : Nat) (detail : String)
deriving DecidableEq, Repr

/-- GET `/todo`: builds and returns the fixed three-item list afresh on
every call (the source keeps no module-level mutable list). -/
def todo : List TodoItemResponse :=
  [{ id := 1, task := "Buy groceries", time_estimate := some 20, completed := false },
   { id := 2, task := "Walk the dog", time_estimate := some 30, completed := false },
   { id := 3, task := "Read a book", time_estimate := some 25, completed := false }]

/-- POST `/todo`: rejects id 0 with HTTP 400 "ID cannot be zero", otherwise
echoes the item with `completed := false`. -/
def add_todo (item : TodoItem) : Except HTTPError TodoItemResponse :=
  if item.id = 0 then
    Except.error (HTTPError.httpException 400 "ID cannot be zero")
  else
    Except.ok { id := item.id, task := item.task,
                time_estimate := item.time_estimate, completed := false }

/-- DELETE `/todo/{item_id}`: returns only a formatted message; nothing is
stored or removed. -/
def delete_todo (item_id : Int) : MessageResponse :=
  { message := "Todo item with id " ++ toString item_id ++ " deleted" }

/-- PUT `/todo/{item_id}`: echoes the request body with
`completed := false`; the path parameter is unused and nothing is stored. -/
def update_todo (item_id : Int) (item : TodoItem) : TodoItemResponse :=
  { id := item.id, task := item.task,
    time_estimate := item.time_estimate, completed := false }

/-- PATCH `/todo/{item_id}/complete`: returns a fresh response with the
defaulted task and `completed := true`. -/
def todo_complete (item_id : Int) : TodoItemResponse :=
  { id := item_id, task := "temp task", time_estimate := none, completed := true }

/-- A mutating-route request to the app, or the GET `/todo` read. -/
inductive Request where
  | getTodo
  | postTodo (item : TodoItem)
  | deleteTodo (item_id : Int)
  | putTodo (item_id : Int) (item : TodoItem)
  | patchComplete (item_id : Int)
deriving DecidableEq, Repr

/-- The possible response bodies of the routes above. -/
inductive Response where
  | todoList (items : List TodoItemResponse)
  | message (m : MessageResponse)
  | item (x : TodoItemResponse)
  | httpError (code : Nat) (detail : String)
deriving DecidableEq, Repr

/-- Request dispatch.  The source module holds no mutable state (every
handler builds its response from its arguments alone), so a handler is a
pure function of the request. -/
def handleRequest : Request → Response
  | Request.getTodo => Response.todoList todo
  | Request.postTodo item =>
    match add_todo item with
    | Except.ok r => Response.item r
    | Except.error (HTTPError.httpException c d) => Response.httpError c d
  | Request.deleteTodo i => Response.message (delete_todo i)
  | Request.putTodo i item => Response.item (update_todo i item)
  | Request.patchComplete i => Response.item (todo_complete i)

/-- Processing a request sequence: each request is handled independently,
reflecting the absence of shared state in the source module. -/
def processRequests (reqs : List Request) : List Response :=
  reqs.map handleRequest

end FastapiHello

namespace TaskApi

/-- A JSON value of the `dict[str, int | str]` response type of
`task-api/main.py`. -/
inductive JsonVal where
  | vInt (n : Int)
  | vStr (s : String)
deriving DecidableEq, Repr

/-- GET `/tasks/{task_id}` (`todo_one`): an error mapping (returned as a
normal response, not raised) for `task_id < 1`; otherwise the fixed task
with a `details` key exactly when `include_details` is set. -/
def todo_one (task_id : Int) (include_details : Bool) : List (String × JsonVal) :=
  if task_id < 1 then
    [("error", JsonVal.vStr "Task not found")]
  else if include_details then
    [("id", JsonVal.vInt task_id), ("task", JsonVal.vStr "Buy LCD"),
     ("details", JsonVal.vStr "Purchase a 24-inch LCD monitor from the electronics store.")]
  else
    [("id", JsonVal.vInt task_id), ("task", JsonVal.vStr "Buy LCD")]

end TaskApi

namespace FixtureGen

theorem lookup_eq_none_iff {β : Type} (l : List (String × β)) (k : String) :
    l.lookup k = none ↔ k ∉ l.map Prod.fst := by
  induction l with
  | nil => simp [List.lookup]
  | cons hd tl ih =>
    obtain ⟨a, b⟩ := hd
    by_cases h : k = a
    · subst h
      simp [List.lookup]
    · rw [show List.lookup k ((a, b) :: tl) = List.lookup k tl from by
        simp [List.lookup, beq_false_of_ne h]]
      rw [ih]
      simp [h]

theorem getTemplateR_ok (reg : List (String × List Seg)) (kind : String)
    (t : List Seg) (ht : getTemplateR reg kind = Except.ok t) :
    reg.lookup kind = some t := by
  unfold getTemplateR at ht
  cases hl : reg.lookup kind with
  | some t2 =>
    rw [hl] at ht
    simp at ht
    rw [ht]
  | none =>
    rw [hl] at ht
    simp at ht

theorem renderSegs_congr (segs : List Seg) (s1 s2 : List (String × String))
    (h : ∀ q ∈ holesList segs, s1.lookup q = s2.lookup q) :
    renderSegs segs s1 = renderSegs segs s2 := by
  induction segs with
  | nil => rfl
  | cons hd rest ih =>
    cases hd with
    | lit s =>
      have hrest : ∀ q ∈ holesList rest, s1.lookup q = s2.lookup q := by
        intro q hq
        exact h q (by simpa [holesList] using hq)
      simp only [renderSegs, ih hrest]
    | hole p =>
      have hp : s1.lookup p = s2.lookup p := h p (by simp [holesList])
      have hrest : ∀ q ∈ holesList rest, s1.lookup q = s2.lookup q := by
        intro q hq
        exact h q (by simp [holesList, hq])
      simp only [renderSegs, hp, ih hrest]

theorem renderSegs_missing (segs : List Seg) (sub : List (String × String))
    (h : ∃ p ∈ holesList segs, sub.lookup p = none) :
    ∃ m ∈ holesList segs, sub.lookup m = none ∧
      renderSegs segs sub = Except.error (GenError.MissingParameterError m) := by
  induction segs with
  | nil => simp [holesList] at h
  | cons hd rest ih =>
    cases hd with
    | lit s =>
      have h2 : ∃ p ∈ holesList rest, sub.lookup p = none := by
        simpa [holesList] using h
      obtain ⟨m, hm, hnone, he⟩ := ih h2
      exact ⟨m, by simpa [holesList] using hm, hnone, by simp [renderSegs, he]⟩
    | hole p =>
      cases hl : sub.lookup p with
      | none =>
        exact ⟨p, by simp [holesList], hl, by simp [renderSegs, hl]⟩
      | some v =>
        obtain ⟨q, hq, hqn⟩ := h
        have hq2 : q ∈ holesList rest := by
          rcases (by simpa [holesList] using hq : q = p ∨ q ∈ holesList rest) with rfl | hmem
          · rw [hl] at hqn
            cases hqn
          · exact hmem
        obtain ⟨m, hm, hnone, he⟩ := ih ⟨q, hq2, hqn⟩
        exact ⟨m, by simp [holesList, hm], hnone, by simp [renderSegs, hl, he]⟩

theorem lookup_append_middle {β : Type} (l1 l2 : List (String × β)) (p q : String)
    (v : β) (h : q ≠ p) :
    (l1 ++ (p, v) :: l2).lookup q = (l1 ++ l2).lookup q := by
  induction l1 with
  | nil => simp [List.lookup, beq_false_of_ne h]
  | cons hd tl ih =>
    obtain ⟨a, b⟩ := hd
    by_cases hqa : q = a
    · subst hqa
      simp [List.lookup]
    · simp [List.lookup, beq_false_of_ne hqa, ih]

theorem batchBodies_error : ∀ (defs : List FixtureDef),
    (∃ d ∈ defs, ∃ e, generate d.kind (effName d) d.extra = Except.error e) →
    ∃ e2, batchBodies defs = Except.error e2 := by
  intro defs
  induction defs with
  | nil =>
    intro h
    simp at h
  | cons d rest ih =>
    intro h
    cases hg : generate d.kind (effName d) d.extra with
    | error e1 => exact ⟨e1, by simp [batchBodies, hg]⟩
    | ok b =>
      obtain ⟨d0, hd0, e, he⟩ := h
      rcases List.mem_cons.mp hd0 with rfl | hmem
      · rw [hg] at he
        cases he
      · obtain ⟨e2, he2⟩ := ih ⟨d0, hmem, e, he⟩
        exact ⟨e2, by simp [batchBodies, hg, he2]⟩

end FixtureGen

namespace FixtureGen

/-- C1: for every kind not in the registry, `getTemplate` and `generate`
fail with `UnknownKindError`, and the error names the invalid kind and
enumerates every valid kind returned by `listKinds`. -/
theorem c1_unknown_kind_error (kind : String) (h : kind ∉ listKinds) :
    getTemplate kind = Except.error (GenError.UnknownKindError kind listKinds) ∧
    ∀ (name : String) (extraParams : List (String × String)),
      generate kind name extraParams =
        Except.error (GenError.UnknownKindError kind listKinds) := by
  have h2 : kind ∉ registry.map Prod.fst := h
  have hnone : registry.lookup kind = none :=
    (lookup_eq_none_iff registry kind).mpr h2
  constructor
  · simp [getTemplate, getTemplateR, hnone, listKinds]
  · intro name extraParams
    simp [generate, generateR, hnone, listKinds]

/-- Witness for C1 at the concrete unregistered kind "widget". -/
theorem c1_unknown_kind_error_witness :
    getTemplate "widget" =
      Except.error (GenError.UnknownKindError "widget" listKinds) ∧
    generate "widget" "w" [] =
      Except.error (GenError.UnknownKindError "widget" listKinds) :=
  ⟨(c1_unknown_kind_error "widget" (by decide)).1,
   (c1_unknown_kind_error "widget" (by decide)).2 "w" []⟩

/-- C2: for any registry, kind, name and extra parameters, if the kind's
template contains a placeholder absent from the combined substitution set
(name + extraParams + per-kind defaults), `generateR` fails with
`MissingParameterError` naming a missing placeholder, never defaulting it
silently. -/
theorem c2_missing_parameter_error (reg : List (String × List Seg))
    (kind name : String) (t : List Seg) (extraParams : List (String × String))
    (ht : getTemplateR reg kind = Except.ok t)
    (h : ∃ p ∈ holesList t, p ∉ (substSet kind name extraParams).map Prod.fst) :
    ∃ m ∈ holesList t, m ∉ (substSet kind name extraParams).map Prod.fst ∧
      generateR reg kind name extraParams =
        Except.error (GenError.MissingParameterError m) := by
  have hlook : reg.lookup kind = some t := getTemplateR_ok reg kind t ht
  obtain ⟨p, hp, hpk⟩ := h
  have hnone : (substSet kind name extraParams).lookup p = none :=
    (lookup_eq_none_iff _ p).mpr hpk
  obtain ⟨m, hm, hmn, he⟩ :=
    renderSegs_missing t (substSet kind name extraParams) ⟨p, hp, hnone⟩
  exact ⟨m, hm, (lookup_eq_none_iff _ m).mp hmn, by simp [generateR, hlook, he]⟩

/-- Witness for C2 on a registry holding a template with an undeclared
placeholder "magic". -/
theorem c2_missing_parameter_error_witness :
    generateR [("custom", [Seg.hole "magic"])] "custom" "x" [] =
      Except.error (GenError.MissingParameterError "magic") := by
  obtain ⟨m, hm, hk, he⟩ :=
    c2_missing_parameter_error [("custom", [Seg.hole "magic"])] "custom" "x"
      [Seg.hole "magic"] [] (by rfl) (by decide)
  have hm2 : m = "magic" := by simpa [holesList] using hm
  rw [hm2] at he
  exact he

/-- C3: if any individual `generate` call of a batch fails, the whole
`generateBatch` fails and no partial output is returned. -/
theorem c3_batch_fail_fast (defs : List FixtureDef)
    (h : ∃ d ∈ defs, ∃ e, generate d.kind (effName d) d.extra = Except.error e) :
    ∃ e2, generateBatch defs = Except.error e2 := by
  obtain ⟨e2, he⟩ := batchBodies_error defs h
  exact ⟨e2, by simp [generateBatch, he]⟩

/-- Witness for C3: a single-element batch with an unregistered kind. -/
theorem c3_batch_fail_fast_witness :
    generateBatch [{ kind := "nope", name := none, extra := [] }] =
      Except.error (GenError.UnknownKindError "nope" listKinds) := by
  obtain ⟨e2, he⟩ := c3_batch_fail_fast
    [{ kind := "nope", name := none, extra := [] }]
    ⟨{ kind := "nope", name := none, extra := [] }, by simp,
      GenError.UnknownKindError "nope" listKinds, by rfl⟩
  exact rfl

/-- C4: a batch of definitions whose `generate` calls all succeed renders to
the fixed two-line header followed by each rendering in input order,
separated by blank lines; a definition with no explicit name uses its kind
identifier as the name. -/
theorem c4_batch_order (defs : List FixtureDef) (bodies : List String)
    (h : List.Forall₂
      (fun d b => generate d.kind (effName d) d.extra = Except.ok b) defs bodies) :
    generateBatch defs =
      Except.ok (batchHeader ++ "\n\n" ++ String.intercalate "\n\n" bodies) ∧
    ∀ (k : String) (e : List (String × String)),
      effName { kind := k, name := none, extra := e } = k := by
  constructor
  · have hb : batchBodies defs = Except.ok bodies := by
      induction h with
      | nil => rfl
      | cons h1 h2 ih => simp [batchBodies, h1, ih]
    simp [generateBatch, hb]
  · intro k e
    rfl

/-- Witness for C4: the spec's two-fixture batch (data "user" before
mock "email"). -/
theorem c4_batch_order_witness :
    generateBatch [{ kind := "data", name := some "user", extra := [] },
                   { kind := "mock", name := some "email", extra := [] }] =
      Except.ok (batchHeader ++ "\n\n" ++ String.intercalate "\n\n"
        ["@pytest.fixture\ndef user():\n    return dict(name=\"user\")\n",
         "@pytest.fixture\ndef email():\n    return MagicMock(name=\"email\")\n"]) :=
  (c4_batch_order _ _
    (List.Forall₂.cons (by rfl) (List.Forall₂.cons (by rfl) List.Forall₂.nil))).1

/-- C5: `generate "scoped" "cache" {}` succeeds, rendering the scoped
template with the `scope` placeholder filled by the default "function" —
the same output as passing scope="function" explicitly. -/
theorem c5_scoped_default :
    generate "scoped" "cache" [] =
      Except.ok "@pytest.fixture(scope=\"function\")\ndef cache():\n    return None\n" ∧
    generate "scoped" "cache" [] = generate "scoped" "cache" [("scope", "function")] :=
  ⟨rfl, rfl⟩

/-- C6: `generate` is a pure deterministic function of the fixed registry
and its inputs: identical inputs give byte-identical output, and the call
consults the immutable `registry` value, mutating nothing. -/
theorem c6_generate_pure (kind name : String)
    (extraParams : List (String × String)) :
    generate kind name extraParams = generate kind name extraParams ∧
    generate kind name extraParams = generateR registry kind name extraParams :=
  ⟨rfl, rfl⟩

/-- C7: every registered kind has a template that is a non-empty string
containing a `name` placeholder, and extra parameter keys not referenced by
the template are silently ignored by `generate`. -/
theorem c7_templates_and_extra_keys :
    (∀ k ∈ listKinds, ∃ t, getTemplate k = Except.ok t ∧
      templateText t ≠ "" ∧ "name" ∈ holesList t) ∧
    (∀ (k name : String) (t : List Seg) (extra : List (String × String))
      (p v : String), getTemplate k = Except.ok t → p ∉ holesList t →
      generate k name (extra ++ [(p, v)]) = generate k name extra) := by
  constructor
  · intro k hk
    have hk2 : k = "factory" ∨ k = "database" ∨ k = "mock" ∨ k = "data" ∨
        k = "async" ∨ k = "autouse" ∨ k = "parametrized" ∨ k = "scoped" := by
      simpa [listKinds, registry] using hk
    rcases hk2 with rfl | rfl | rfl | rfl | rfl | rfl | rfl | rfl <;>
      exact ⟨_, rfl, by decide, by decide⟩
  · intro k name t extra p v ht hp
    have hlook : registry.lookup k = some t := getTemplateR_ok registry k t ht
    have hcong : ∀ q ∈ holesList t,
        (substSet k name (extra ++ [(p, v)])).lookup q =
          (substSet k name extra).lookup q := by
      intro q hq
      have hqp : q ≠ p := fun he => hp (he ▸ hq)
      have hmid := lookup_append_middle (("name", name) :: extra)
        (kindDefaults k) p q v hqp
      simpa [substSet, List.cons_append, List.append_assoc] using hmid
    simp only [generate, generateR, hlook]
    exact renderSegs_congr t _ _ hcong

/-- Witness for C7: the "factory" kind, and an ignored extra key "junk". -/
theorem c7_templates_and_extra_keys_witness :
    (∃ t, getTemplate "factory" = Except.ok t ∧
      templateText t ≠ "" ∧ "name" ∈ holesList t) ∧
    generate "factory" "user" ([("color", "red")] ++ [("junk", "v")]) =
      generate "factory" "user" [("color", "red")] :=
  ⟨c7_templates_and_extra_keys.1 "factory" (by decide),
   c7_templates_and_extra_keys.2 "factory" "user" factoryTemplate
     [("color", "red")] "junk" "v" (by rfl) (by decide)⟩

end FixtureGen

namespace FastapiHello

/-- C8: `add_todo` raises HTTP 400 "ID cannot be zero" exactly when the
item's id is 0, and otherwise returns the item's id, task and time estimate
unchanged with `completed := false`. -/
theorem c8_add_todo_spec (item : TodoItem) :
    (add_todo item =
        Except.error (HTTPError.httpException 400 "ID cannot be zero") ↔
      item.id = 0) ∧
    (item.id ≠ 0 →
      add_todo item = Except.ok
        { id := item.id, task := item.task,
          time_estimate := item.time_estimate, completed := false }) := by
  by_cases h : item.id = 0 <;> simp [add_todo, h]

/-- Witness for C8 at the test suite's item (id 4). -/
theorem c8_add_todo_spec_witness :
    add_todo { id := 4, task := "Write tests", time_estimate := some 15 } =
      Except.ok
        { id := 4, task := "Write tests", time_estimate := some 15,
          completed := false } :=
  (c8_add_todo_spec
    { id := 4, task := "Write tests", time_estimate := some 15 }).2 (by decide)

end FastapiHello

namespace TaskApi

/-- C9: `todo_one` returns the error mapping as a normal response for every
task_id below 1; for task_id at least 1 the mapping has id = task_id,
task = "Buy LCD", and a "details" key exactly when include_details is set. -/
theorem c9_todo_one_spec (task_id : Int) (include_details : Bool) :
    (task_id < 1 →
      todo_one task_id include_details = [("error", JsonVal.vStr "Task not found")]) ∧
    (1 ≤ task_id →
      (todo_one task_id include_details).lookup "id" = some (JsonVal.vInt task_id) ∧
      (todo_one task_id include_details).lookup "task" = some (JsonVal.vStr "Buy LCD") ∧
      (((todo_one task_id include_details).lookup "details").isSome ↔
        include_details = true)) := by
  by_cases h : task_id < 1
  · refine ⟨fun _ => by simp [todo_one, h], fun hge => absurd h (by omega)⟩
  · refine ⟨fun hlt => absurd hlt h, fun _ => ?_⟩
    cases include_details <;>
      simp [todo_one, h, List.lookup]

/-- Witness for C9 at task ids 0 and 2. -/
theorem c9_todo_one_spec_witness :
    todo_one 0 false = [("error", JsonVal.vStr "Task not found")] ∧
    (todo_one 2 true).lookup "id" = some (JsonVal.vInt 2) ∧
    ((todo_one 2 false).lookup "details").isSome = false := by
  refine ⟨(c9_todo_one_spec 0 false).1 (by decide),
    ((c9_todo_one_spec 2 true).2 (by decide)).1, ?_⟩
  have h := ((c9_todo_one_spec 2 false).2 (by decide)).2.2
  cases hb : ((todo_one 2 false).lookup "details").isSome
  · rfl
  · exact absurd (h.mp hb) Bool.false_ne_true

end TaskApi

namespace FastapiHello

/-- C10: the handlers keep no state across calls — after any request
sequence, GET /todo still returns the fixed three-item list (ids 1, 2, 3,
all not completed); `delete_todo` returns only a message and `update_todo`
only echoes its input with `completed := false`. -/
theorem c10_stateless (reqs : List Request) :
    (processRequests (reqs ++ [Request.getTodo])).getLast? =
      some (Response.todoList
        [{ id := 1, task := "Buy groceries", time_estimate := some 20, completed := false },
         { id := 2, task := "Walk the dog", time_estimate := some 30, completed := false },
         { id := 3, task := "Read a book", time_estimate := some 25, completed := false }]) ∧
    (∀ item_id : Int, delete_todo item_id =
      { message := "Todo item with id " ++ toString item_id ++ " deleted" }) ∧
    (∀ (item_id : Int) (item : TodoItem), update_todo item_id item =
      { id := item.id, task := item.task, time_estimate := item.time_estimate,
        completed := false }) := by
  refine ⟨?_, fun _ => rfl, fun _ _ => rfl⟩
  simp [processRequests, handleRequest, todo]

end FastapiHello
